import Mathlib

/-!
Shallow embedding of the notify_server event ingestion and fan-out subsystem
(src/notify_server/src/notify.rs and the UserMap of src/notify_server/src/lib.rs),
together with proofs about its decode, recipient-resolution and pump behaviour.

Machine integers are embedded as follows: Rust `u64` values become `Nat`
(every value produced by the code is `< 2^64`), Rust `i64` values become `Int`
(the i64 range `-2^63 ≤ v < 2^63` appears as an explicit hypothesis where it
matters), and the cast `v as u64` on an `i64` becomes `u64OfI64` below, the
mathematical residue `v % 2^64`.  `HashSet<u64>` becomes `Finset ℕ`.
-/

namespace ChatNotify

/-- Rust `i64 as u64` cast: a bit-reinterpreting (wrapping) conversion,
i.e. the unique representative of `v` modulo `2^64` in `[0, 2^64)`. -/
def u64OfI64 (v : Int) : Nat :=
  (v % (2 : Int) ^ 64).toNat

/-- Modelled from the spec: the `ChatType` enum of the `chat_core` crate
(the crate's type definitions are not under src/; variants are pinned down by
src/chat_server/src/models/chat.rs, which uses `ChatType::Single`, `Group`,
`PrivateChannel` and `PublicChannel`). -/
inductive ChatType where
  | single
  | group
  | privateChannel
  | publicChannel
deriving DecidableEq, Repr

/-- Modelled from the spec: the `Chat` entity of the `chat_core` crate (not
under src/): "identifier, workspace id, optional name, type, ordered/unordered
set of member user identifiers, creation timestamp".  `members` is `Vec<i64>`,
as pinned down by the cast `|v: &i64| *v as u64` in
src/notify_server/src/notify.rs and by src/chat_server/src/models/chat.rs;
the creation timestamp is abstracted as an integer. -/
structure Chat where
  id : Int
  wsId : Int
  name : Option String
  ctype : ChatType
  members : List Int
  createdAt : Int
deriving DecidableEq, Repr

/-- Modelled from the spec: the `Message` entity of the `chat_core` crate (not
under src/): "identifier, chat id, sender id, content, list of attachment
references, creation timestamp". -/
structure Message where
  id : Int
  chatId : Int
  senderId : Int
  content : String
  files : List String
  createdAt : Int
deriving DecidableEq, Repr

/-- `AppEvent` from src/notify_server/src/notify.rs. -/
inductive AppEvent where
  | NewChat (c : Chat)
  | AddToChat (c : Chat)
  | RemoveFromChat (c : Chat)
  | NewMessage (m : Message)
deriving DecidableEq, Repr

/-- `Notification` from src/notify_server/src/notify.rs: the impacted users
(`HashSet<u64>`, embedded as `Finset ℕ`) and the decoded event (the `Arc` is
dropped: it only shares the one immutable event value across recipients). -/
structure Notification where
  user_ids : Finset Nat
  event : AppEvent
deriving DecidableEq

/-- `ChatUpdated` payload shape from src/notify_server/src/notify.rs. -/
structure ChatUpdated where
  op : String
  old : Option Chat
  new : Option Chat
deriving DecidableEq, Repr

/-- `ChatMessageCreated` payload shape from src/notify_server/src/notify.rs
(`members` is `Vec<u64>`). -/
structure ChatMessageCreated where
  message : Message
  members : List Nat
deriving DecidableEq, Repr

/-- `get_affected_chat_user_ids` from src/notify_server/src/notify.rs:
diff old/new members after casting each `i64` member to `u64`; if both
snapshots are present and the two member sets are identical the result is
empty, otherwise their union; with one snapshot present, that snapshot's
member set; with neither, empty. -/
def get_affected_chat_user_ids (old new : Option Chat) : Finset Nat :=
  match old, new with
  | some o, some n =>
    let old_members : Finset Nat := (o.members.map u64OfI64).toFinset
    let new_members : Finset Nat := (n.members.map u64OfI64).toFinset
    if old_members = new_members then ∅ else old_members ∪ new_members
  | some o, none => (o.members.map u64OfI64).toFinset
  | none, some n => (n.members.map u64OfI64).toFinset
  | none, none => ∅

/-- The ways `Notification::load` can fail to return a `Notification`.
`parseError` embeds the `?` on `serde_json::from_str` (carrying the parser
diagnostic); `invalidOperation` is `anyhow!("Invalid operation")`;
`invalidNotificationType` is `anyhow!("Invalid notification type")`;
`panicked` embeds a Rust `Option::expect` panic (in Rust this aborts the task
rather than returning an `Err` — it is kept as a separate constructor so that
panicking and returning an error stay distinguishable). -/
inductive LoadErr where
  | parseError (diag : String)
  | invalidOperation
  | invalidNotificationType
  | panicked (msg : String)
deriving DecidableEq, Repr

/-- A raw notification as seen by `Notification::load`: the channel tag
(`notif.channel()`) together with the outcome of deserializing its payload
text (`notif.payload()`) under each of the two payload shapes.  `serde_json`
parsing of a fixed string is deterministic, so the payload is embedded by its
two possible parse outcomes rather than as raw JSON text. -/
structure RawNotification where
  channel : String
  parseChatUpdated : Except String ChatUpdated
  parseChatMessageCreated : Except String ChatMessageCreated

/-- `Notification::load` from src/notify_server/src/notify.rs.  Dispatch on
the channel tag (Rust's `match` on `&str` is an equality chain); for
`chat_updated`, compute the affected users from the old/new diff and build the
event from the `op` tag, `expect`ing the needed snapshot; for
`chat_message_created`, collect the member list into a set; otherwise fail
with "Invalid notification type". -/
def Notification.load (rn : RawNotification) : Except LoadErr Notification :=
  if rn.channel = "chat_updated" then
    match rn.parseChatUpdated with
    | .error e => .error (.parseError e)
    | .ok payload =>
      let user_ids := get_affected_chat_user_ids payload.old payload.new
      if payload.op = "INSERT" then
        match payload.new with
        | some c => .ok ⟨user_ids, .NewChat c⟩
        | none => .error (.panicked "new should be present")
      else if payload.op = "UPDATE" then
        match payload.old with
        | some c => .ok ⟨user_ids, .AddToChat c⟩
        | none => .error (.panicked "new should be present")
      else if payload.op = "DELETE" then
        match payload.old with
        | some c => .ok ⟨user_ids, .RemoveFromChat c⟩
        | none => .error (.panicked "old should be present")
      else
        .error .invalidOperation
  else if rn.channel = "chat_message_created" then
    match rn.parseChatMessageCreated with
    | .error e => .error (.parseError e)
    | .ok payload => .ok ⟨payload.members.toFinset, .NewMessage payload.message⟩
  else
    .error .invalidNotificationType

/-- A `tokio::sync::broadcast::Sender<Arc<AppEvent>>`, abstracted by the one
property `send` observes: its current number of receivers.  `send` succeeds
if and only if at least one receiver exists. -/
structure Sender where
  receivers : Nat

/-- `UserMap` from src/notify_server/src/lib.rs:
`Arc<DashMap<u64, broadcast::Sender<Arc<AppEvent>>>>`, embedded as a lookup
function (the pump only calls `users.get`). -/
abbrev UserMap : Type := Nat → Option Sender

/-- The empty registry: no user has an entry. -/
def UserMap.empty : UserMap := fun _ => none

/-- Outcome of the per-recipient body of the pump's fan-out loop in
`setup_pg_listener` (src/notify_server/src/notify.rs).  `noReceiverEntry`:
`users.get` returned `None`, nothing happens; `sent`: `tx.send` succeeded;
`sendFailedLogged`: `tx.send` returned `Err` (no receivers) and a warning was
logged.  None of these constructors aborts the loop: the loop body has no
early exit. -/
inductive DeliverOutcome where
  | noReceiverEntry
  | sent (ev : AppEvent)
  | sendFailedLogged
deriving DecidableEq, Repr

/-- One iteration of the fan-out loop of `setup_pg_listener`:
`if let Some(tx) = users.get(&user_id) { if let Err(e) = tx.send(..) { warn!(..) } }`. -/
def publishToUser (users : UserMap) (uid : Nat) (ev : AppEvent) : DeliverOutcome :=
  match users uid with
  | none => .noReceiverEntry
  | some tx => if tx.receivers = 0 then .sendFailedLogged else .sent ev

/-- The whole fan-out loop of `setup_pg_listener` over the resolved
recipients: each recipient is handled in turn and no outcome stops the loop. -/
def deliverAll (users : UserMap) (uids : List Nat) (ev : AppEvent) : List DeliverOutcome :=
  uids.map (fun uid => publishToUser users uid ev)

/-- Fan-out for one decoded notification.  The `HashSet` iteration order is
unspecified in Rust; it is embedded as the sorted enumeration of the set
(no claim depends on the order, only on each recipient being handled once). -/
def processNotification (users : UserMap) (nt : Notification) : List DeliverOutcome :=
  deliverAll users (nt.user_ids.sort (· ≤ ·)) nt.event

/-- One item of `listener.into_stream()`: `Ok` carries a raw notification,
`error` a `sqlx` error (the payload of which the pump never inspects). -/
abbrev StreamItem : Type := Except String RawNotification

/-- The pump loop spawned by `setup_pg_listener`
(src/notify_server/src/notify.rs, the `tokio::spawn` body):

`while let Some(Ok(notif)) = stream.next().await { let notification =
Notification::load(..)?; for user_id in notification.user_ids { .. } }`

run over a finite prefix of the stream.  Returns the list of notifications
that were decoded and fanned out (with their delivery outcomes) and the
task's result: the end of the stream or a `Some(Err(..))` item makes the
`while let` pattern fail, so the loop exits and the task returns `Ok(())`;
a `Notification::load` failure propagates through `?` and the task returns
that error, processing nothing further. -/
def runPump (users : UserMap) :
    List StreamItem → List (Notification × List DeliverOutcome) × Except LoadErr Unit
  | [] => ([], .ok ())
  | .error _ :: _ => ([], .ok ())
  | .ok rn :: rest =>
    match Notification.load rn with
    | .error e => ([], .error e)
    | .ok nt =>
      let r := runPump users rest
      ((nt, processNotification users nt) :: r.1, r.2)

/-! ### Helper lemmas about the `i64 → u64` cast -/

/-- The cast is injective on the `i64` range. -/
lemma u64OfI64_injOn {a b : Int} (ha1 : -(2 ^ 63) ≤ a) (ha2 : a < 2 ^ 63)
    (hb1 : -(2 ^ 63) ≤ b) (hb2 : b < 2 ^ 63) (h : u64OfI64 a = u64OfI64 b) : a = b := by
  unfold u64OfI64 at h
  have h64 : (2 : Int) ^ 64 = 18446744073709551616 := by norm_num
  have h63 : (2 : Int) ^ 63 = 9223372036854775808 := by norm_num
  rw [h64] at h
  rw [h63] at ha2 hb2
  rw [h63] at ha1 hb1
  omega

/-- Lists that are equal as sets of `i64` values cast to equal sets of
`u64` values. -/
lemma castSet_congr {lo ln : List Int} (h : lo.toFinset = ln.toFinset) :
    (lo.map u64OfI64).toFinset = (ln.map u64OfI64).toFinset := by
  rw [List.toFinset.ext_iff] at h ⊢
  intro x
  simp only [List.mem_map]
  constructor
  · rintro ⟨v, hv, rfl⟩
    exact ⟨v, (h v).mp hv, rfl⟩
  · rintro ⟨v, hv, rfl⟩
    exact ⟨v, (h v).mpr hv, rfl⟩

/-- If two in-`i64`-range lists cast to the same set of `u64` values, each
element of the first occurs in the second. -/
lemma mem_of_castSet_eq {lo ln : List Int}
    (hro : ∀ v ∈ lo, -(2 ^ 63) ≤ v ∧ v < 2 ^ 63)
    (hrn : ∀ v ∈ ln, -(2 ^ 63) ≤ v ∧ v < 2 ^ 63)
    (heq : ∀ x, x ∈ lo.map u64OfI64 ↔ x ∈ ln.map u64OfI64)
    {v : Int} (hv : v ∈ lo) : v ∈ ln := by
  obtain ⟨w, hw, hwv⟩ := List.mem_map.mp ((heq (u64OfI64 v)).mp (List.mem_map.mpr ⟨v, hv, rfl⟩))
  obtain ⟨hv1, hv2⟩ := hro v hv
  obtain ⟨hw1, hw2⟩ := hrn w hw
  rwa [u64OfI64_injOn hw1 hw2 hv1 hv2 hwv] at hw

/-! ### Claims about the recipient resolver -/

/-- C3: for every `EntityDiff` with both `before` and `after` chats present
whose member sets are equal (as sets, regardless of list order or
duplicates), the recipient resolver returns the empty set. -/
theorem resolve_identical_member_sets_empty (o n : Chat)
    (h : o.members.toFinset = n.members.toFinset) :
    get_affected_chat_user_ids (some o) (some n) = ∅ := by
  have hc := castSet_congr h
  simp [get_affected_chat_user_ids, hc]

theorem resolve_identical_member_sets_empty_witness :
    get_affected_chat_user_ids (some ⟨1, 1, none, .group, [2, 1, 1], 0⟩)
      (some ⟨1, 1, some "g", .group, [1, 2], 0⟩) = ∅ :=
  resolve_identical_member_sets_empty _ _ (by decide)

/-- C4: for every `EntityDiff` with both `before` and `after` chats present
whose member sets differ, the recipient resolver returns exactly the
deduplicated set union of both member lists (cast to `u64`), independent of
the order of either list; the `i64`-range hypotheses embed the Rust invariant
that the members are `i64` values. -/
theorem resolve_differing_member_sets_union (o n : Chat)
    (hro : ∀ v ∈ o.members, -(2 ^ 63) ≤ v ∧ v < 2 ^ 63)
    (hrn : ∀ v ∈ n.members, -(2 ^ 63) ≤ v ∧ v < 2 ^ 63)
    (hne : o.members.toFinset ≠ n.members.toFinset) :
    get_affected_chat_user_ids (some o) (some n)
      = ((o.members ++ n.members).map u64OfI64).toFinset := by
  have hcne : (o.members.map u64OfI64).toFinset ≠ (n.members.map u64OfI64).toFinset := by
    intro heq
    apply hne
    rw [List.toFinset.ext_iff] at heq ⊢
    intro v
    exact ⟨fun hv => mem_of_castSet_eq hro hrn heq hv,
           fun hv => mem_of_castSet_eq hrn hro (fun x => (heq x).symm) hv⟩
  simp [get_affected_chat_user_ids, hcne, List.map_append, List.toFinset_append]

theorem resolve_differing_member_sets_union_witness :
    get_affected_chat_user_ids (some ⟨1, 1, none, .group, [1, 2], 0⟩)
      (some ⟨1, 1, none, .group, [1, 2, 3], 0⟩)
      = (([1, 2] ++ [1, 2, 3] : List Int).map u64OfI64).toFinset :=
  resolve_differing_member_sets_union _ _ (by decide) (by decide) (by decide)

/-- C5: for every `EntityDiff` with exactly one snapshot present the
recipient resolver returns exactly that snapshot's member set (cast to
`u64`), and with neither present it returns the empty set. -/
theorem resolve_single_snapshot (c : Chat) :
    get_affected_chat_user_ids (some c) none = (c.members.map u64OfI64).toFinset ∧
    get_affected_chat_user_ids none (some c) = (c.members.map u64OfI64).toFinset ∧
    get_affected_chat_user_ids none none = ∅ :=
  ⟨rfl, rfl, rfl⟩

/-- C10: the resolver casts each `i64` member id to `u64` with a wrapping
`as` cast, so a negative member id `v` contributes the value `2^64 + v` to
the resolved recipient set instead of being rejected or omitted. -/
theorem resolve_negative_member_wraps (c : Chat) (v : Int)
    (hneg : v < 0) (hlo : -(2 ^ 63) ≤ v) (hmem : v ∈ c.members) :
    u64OfI64 v = ((2 : Int) ^ 64 + v).toNat ∧
    ((2 : Int) ^ 64 + v).toNat ∈ get_affected_chat_user_ids (some c) none := by
  have h64 : (2 : Int) ^ 64 = 18446744073709551616 := by norm_num
  have h63 : (2 : Int) ^ 63 = 9223372036854775808 := by norm_num
  have hcast : u64OfI64 v = ((2 : Int) ^ 64 + v).toNat := by
    unfold u64OfI64
    rw [h64]
    rw [h63] at hlo
    omega
  refine ⟨hcast, ?_⟩
  have hdel : get_affected_chat_user_ids (some c) none = (c.members.map u64OfI64).toFinset := rfl
  rw [hdel, ← hcast, List.mem_toFinset]
  exact List.mem_map.mpr ⟨v, hmem, rfl⟩

theorem resolve_negative_member_wraps_witness :
    u64OfI64 (-5) = ((2 : Int) ^ 64 + (-5)).toNat ∧
    ((2 : Int) ^ 64 + (-5)).toNat
      ∈ get_affected_chat_user_ids (some ⟨1, 1, none, .group, [-5, 7], 0⟩) none :=
  resolve_negative_member_wraps _ (-5) (by decide) (by decide) (by decide)

/-! ### Claims about the change decoder -/

/-- C7: for every channel tag outside the known set (`chat_updated`,
`chat_message_created`) and every payload, decode fails with the
unknown-channel error (`anyhow!("Invalid notification type")` in the source,
the spec's `DecodeError::UnknownChannel`) and never produces a
notification. -/
theorem load_unknown_channel_fails (rn : RawNotification)
    (h1 : rn.channel ≠ "chat_updated") (h2 : rn.channel ≠ "chat_message_created") :
    Notification.load rn = .error .invalidNotificationType := by
  unfold Notification.load
  rw [if_neg h1, if_neg h2]

theorem load_unknown_channel_fails_witness :
    Notification.load ⟨"user_deleted", .error "e1", .error "e2"⟩
      = .error .invalidNotificationType :=
  load_unknown_channel_fails _ (by decide) (by decide)

/-- C6: for every `chat_message_created` payload, decode resolves exactly the
deduplicated set of the provided member ids, independent of the order and
multiplicity of the input list (any permutation of the member list yields the
same set, and `toFinset` deduplicates). -/
theorem load_message_created_dedup (rn : RawNotification) (pm : ChatMessageCreated)
    (hch : rn.channel = "chat_message_created")
    (hp : rn.parseChatMessageCreated = .ok pm) :
    Notification.load rn = .ok ⟨pm.members.toFinset, .NewMessage pm.message⟩ ∧
    ∀ l : List Nat, l.Perm pm.members → l.toFinset = pm.members.toFinset := by
  constructor
  · unfold Notification.load
    rw [hch, if_neg (by decide), if_pos rfl, hp]
  · intro l hperm
    exact List.toFinset_eq_of_perm _ _ hperm

theorem load_message_created_dedup_witness :
    Notification.load
        ⟨"chat_message_created", .error "e", .ok ⟨⟨1, 1, 1, "hi", [], 0⟩, [2, 1, 2]⟩⟩
      = .ok ⟨([2, 1, 2] : List Nat).toFinset, .NewMessage ⟨1, 1, 1, "hi", [], 0⟩⟩ :=
  (load_message_created_dedup _ _ rfl rfl).1

/-- C9: for every `chat_updated` payload with op `UPDATE` and both snapshots
present, the decoded event is always `AddToChat` carrying the old (pre-change)
snapshot — never `RemoveFromChat` and never the new snapshot — regardless of
whether the update added or removed members. -/
theorem load_update_is_add_to_chat_old (rn : RawNotification) (pu : ChatUpdated) (o n : Chat)
    (hch : rn.channel = "chat_updated") (hp : rn.parseChatUpdated = .ok pu)
    (hop : pu.op = "UPDATE") (ho : pu.old = some o) (hn : pu.new = some n) :
    Notification.load rn
      = .ok ⟨get_affected_chat_user_ids (some o) (some n), .AddToChat o⟩ := by
  unfold Notification.load
  rw [hch, if_pos rfl, hp]
  simp [hop, ho, hn]

theorem load_update_is_add_to_chat_old_witness :
    Notification.load
        ⟨"chat_updated",
         .ok ⟨"UPDATE", some ⟨1, 1, none, .group, [1, 2, 3], 0⟩,
              some ⟨1, 1, none, .group, [1, 2], 0⟩⟩,
         .error "e"⟩
      = .ok ⟨get_affected_chat_user_ids (some ⟨1, 1, none, .group, [1, 2, 3], 0⟩)
               (some ⟨1, 1, none, .group, [1, 2], 0⟩),
             .AddToChat ⟨1, 1, none, .group, [1, 2, 3], 0⟩⟩ :=
  load_update_is_add_to_chat_old _ _ _ _ rfl rfl rfl rfl rfl

/-- C2 counterexample: decode performs no operation/snapshot pairing
validation.  An `UPDATE` payload missing the `new` snapshot — a pairing the
claim says must fail cleanly with `InconsistentDiff` — decodes successfully,
and an `INSERT` payload missing the `after` snapshot panics through
`Option::expect` instead of returning an error. -/
theorem load_pairing_violation_cex :
    Notification.load
        ⟨"chat_updated", .ok ⟨"UPDATE", some ⟨1, 1, none, .group, [1, 2], 0⟩, none⟩, .error "e"⟩
      = .ok ⟨(([1, 2] : List Int).map u64OfI64).toFinset,
             .AddToChat ⟨1, 1, none, .group, [1, 2], 0⟩⟩ ∧
    Notification.load ⟨"chat_updated", .ok ⟨"INSERT", none, none⟩, .error "e"⟩
      = .error (.panicked "new should be present") :=
  ⟨rfl, rfl⟩

/-- C2 (amended): for `chat_updated` payloads the decoder never checks the
operation/snapshot pairing.  The snapshot the operation's event needs
(`new` for insert, `old` for update and delete) is taken with
`Option::expect`, which panics — rather than failing cleanly — when it is
absent; the other snapshot is never inspected, so e.g. an update carrying
only the `old` snapshot decodes successfully.  No `InconsistentDiff`-style
error exists in the code. -/
theorem load_no_pairing_validation (rn : RawNotification) (pu : ChatUpdated)
    (hch : rn.channel = "chat_updated") (hp : rn.parseChatUpdated = .ok pu) :
    (∀ c, pu.op = "INSERT" → pu.new = some c →
       Notification.load rn = .ok ⟨get_affected_chat_user_ids pu.old pu.new, .NewChat c⟩) ∧
    (pu.op = "INSERT" → pu.new = none →
       Notification.load rn = .error (.panicked "new should be present")) ∧
    (∀ c, pu.op = "UPDATE" → pu.old = some c →
       Notification.load rn = .ok ⟨get_affected_chat_user_ids pu.old pu.new, .AddToChat c⟩) ∧
    (pu.op = "UPDATE" → pu.old = none →
       Notification.load rn = .error (.panicked "new should be present")) ∧
    (∀ c, pu.op = "DELETE" → pu.old = some c →
       Notification.load rn = .ok ⟨get_affected_chat_user_ids pu.old pu.new, .RemoveFromChat c⟩) ∧
    (pu.op = "DELETE" → pu.old = none →
       Notification.load rn = .error (.panicked "old should be present")) := by
  unfold Notification.load
  rw [hch, if_pos rfl, hp]
  refine ⟨?_, ?_, ?_, ?_, ?_, ?_⟩
  · intro c hop hc
    simp [hop, hc]
  · intro hop hc
    simp [hop, hc]
  · intro c hop hc
    simp [hop, hc]
  · intro hop hc
    simp [hop, hc]
  · intro c hop hc
    simp [hop, hc]
  · intro hop hc
    simp [hop, hc]

theorem load_no_pairing_validation_witness :
    Notification.load
        ⟨"chat_updated", .ok ⟨"UPDATE", some ⟨1, 1, none, .group, [1, 2], 0⟩, none⟩,
         .error "e2"⟩
      = .ok ⟨get_affected_chat_user_ids (some ⟨1, 1, none, .group, [1, 2], 0⟩) none,
             .AddToChat ⟨1, 1, none, .group, [1, 2], 0⟩⟩ :=
  (load_no_pairing_validation _ _ rfl rfl).2.2.1 _ rfl rfl

/-! ### Claims about the pump and the fan-out loop -/

/-- C1: evaluation of the pump at a stream whose first notification fails to
decode.  The `?` on `Notification::load` propagates the error out of the
spawned task: the task ends with the decode error, no notification is fanned
out, and in particular the second, well-formed `chat_message_created`
notification (shown decodable by the second conjunct) is never processed. -/
theorem pump_decode_failure_terminates :
    runPump UserMap.empty
        [.ok ⟨"bogus", .error "e", .error "e"⟩,
         .ok ⟨"chat_message_created", .error "e", .ok ⟨⟨9, 1, 4, "m", [], 0⟩, [7]⟩⟩]
      = ([], .error .invalidNotificationType) ∧
    Notification.load ⟨"chat_message_created", .error "e", .ok ⟨⟨9, 1, 4, "m", [], 0⟩, [7]⟩⟩
      = .ok ⟨([7] : List Nat).toFinset, .NewMessage ⟨9, 1, 4, "m", [], 0⟩⟩ :=
  ⟨rfl, rfl⟩

/-- C8: publishing to a user with zero active receivers never surfaces an
error to the pump.  A registry miss is a silent no-op; an entry whose
broadcast send reports no receivers only yields a logged warning; the
fan-out loop handles every recipient in turn with no early exit; and the
pump's task result never depends on the registry at all (so delivery can
never block or terminate it). -/
theorem publish_zero_receivers_silent (users : UserMap) (uid : Nat) (ev : AppEvent)
    (uids : List Nat) :
    (users uid = none → publishToUser users uid ev = .noReceiverEntry) ∧
    (∀ tx, users uid = some tx → tx.receivers = 0 →
       publishToUser users uid ev = .sendFailedLogged) ∧
    deliverAll users (uid :: uids) ev = publishToUser users uid ev :: deliverAll users uids ev ∧
    (deliverAll users uids ev).length = uids.length ∧
    ∀ (users2 : UserMap) (stream : List StreamItem),
      (runPump users stream).2 = (runPump users2 stream).2 := by
  refine ⟨?_, ?_, rfl, ?_, ?_⟩
  · intro h
    simp [publishToUser, h]
  · intro tx h hz
    simp [publishToUser, h, hz]
  · simp [deliverAll]
  · intro users2 stream
    induction stream with
    | nil => rfl
    | cons it rest ih =>
      cases it with
      | error e => rfl
      | ok rn =>
        cases hl : Notification.load rn with
        | error e => simp [runPump, hl]
        | ok nt => simp [runPump, hl, ih]

theorem publish_zero_receivers_silent_witness :
    publishToUser UserMap.empty 42 (.NewMessage ⟨1, 1, 1, "m", [], 0⟩) = .noReceiverEntry ∧
    publishToUser (fun u => if u = 5 then some ⟨0⟩ else none) 5
        (.NewMessage ⟨1, 1, 1, "m", [], 0⟩) = .sendFailedLogged :=
  ⟨(publish_zero_receivers_silent UserMap.empty 42 _ []).1 rfl,
   (publish_zero_receivers_silent (fun u => if u = 5 then some ⟨0⟩ else none) 5 _ []).2.1
     ⟨0⟩ rfl rfl⟩

end ChatNotify
